import Mathlib

/-!
Shallow embedding of the AI course-generation and chat-tool pipeline of the
sentry-build-ai-workshop repository (apps/server/src/modules/ai/routes.ts and
the chat routes module), together with theorems settling the specification
claims about it.

Database rows are modelled as Lean structures carrying exactly the fields the
routes read or write; the database is a record of row lists.  Nondeterminism
(Math.random draws and createId() calls) is passed in explicitly: a random
draw is a natural number reduced modulo the candidate count, and generated
ids are supplied as strings / streams of strings.  Fallible database inserts
are modelled by explicit oracles (whether the course insert returned a row,
and whether the lesson batch insert threw, with the thrown message).
-/

namespace SentryAcademy

/-- A user row: only `id` and `role` are read by the AI routes. -/
structure User where
  id : String
  role : String
  deriving Repr, DecidableEq

/-- A course row, with the fields written by `createCourseTool` and read by the
chat tools.  `rating` and `enrollmentCount` are populated by database defaults
on insert (the tool does not supply them) and are modelled as integers. -/
structure Course where
  id : String
  title : String
  slug : String
  description : String
  instructorId : String
  thumbnail : String
  category : String
  tags : List String
  level : String
  duration : String
  price : String
  prerequisites : List String
  learningObjectives : List String
  status : String
  rating : Int
  enrollmentCount : Int
  deriving Repr, DecidableEq

/-- A lesson row as written by `createCourseTool` and read by `getLessonsTool`. -/
structure Lesson where
  id : String
  courseId : String
  title : String
  slug : String
  description : String
  type : String
  content : String
  duration : String
  order : Nat
  isFree : Bool
  deriving Repr, DecidableEq

/-- A category row as read by the chat tools. -/
structure Category where
  id : String
  name : String
  description : String
  icon : String
  order : Nat
  deriving Repr, DecidableEq

/-- The database state the AI routes touch. -/
structure DB where
  users : List User
  courses : List Course
  lessons : List Lesson
  categories : List Category
  deriving Repr, DecidableEq

/-- One lesson of the model-produced course draft (the `lessons` array element
of `createCourseTool`'s parameters). -/
structure LessonInput where
  title : String
  description : String
  type : String
  duration : String
  content : String
  deriving Repr, DecidableEq

/-- The validated parameter object of `createCourseTool`. -/
structure CreateCourseInput where
  title : String
  description : String
  category : String
  level : String
  duration : String
  tags : List String
  prerequisites : List String
  learningObjectives : List String
  lessons : List LessonInput
  instructorId : String
  deriving Repr, DecidableEq

/-- Result of `createCourseTool.execute`: either the success payload
`(success:true, course, lessonsCreated, message)` or the failure payload
`(success:false, error, message)`. -/
inductive ToolResult where
  | success (course : Course) (lessonsCreated : Nat) (message : String)
  | failure (error : String) (message : String)
  deriving Repr, DecidableEq

/-- The fixed thumbnail pool (`COURSE_THUMBNAILS`). -/
def COURSE_THUMBNAILS : List String :=
  ["https://images.pexels.com/photos/4050315/pexels-photo-4050315.jpeg",
   "https://images.pexels.com/photos/2004161/pexels-photo-2004161.jpeg",
   "https://images.pexels.com/photos/3861969/pexels-photo-3861969.jpeg",
   "https://images.pexels.com/photos/1181467/pexels-photo-1181467.jpeg",
   "https://images.pexels.com/photos/1181244/pexels-photo-1181244.jpeg",
   "https://images.pexels.com/photos/577585/pexels-photo-577585.jpeg",
   "https://images.pexels.com/photos/1181675/pexels-photo-1181675.jpeg",
   "https://images.pexels.com/photos/8386440/pexels-photo-8386440.jpeg"]

/-- `getRandomThumbnail`: uniform draw from the pool; the draw
`Math.floor(Math.random() * length)` is modelled by `r % length`. -/
def getRandomThumbnail (r : Nat) : String :=
  COURSE_THUMBNAILS.getD (r % COURSE_THUMBNAILS.length) ""

/-- The ids of the instructor accounts of a database state
(`select id from users where role = 'instructor'`). -/
def instructorIds (db : DB) : List String :=
  (db.users.filter (fun u => u.role == "instructor")).map User.id

/-- `getRandomInstructor`: errors when no instructor account exists, else picks
the `r % n`-th of the `n` instructor ids (the uniform random draw
`Math.floor(Math.random() * n)` is modelled by `r % n`; since `r % n < n`
the `getD` default is never consulted). -/
def getRandomInstructor (db : DB) (r : Nat) : Except String String :=
  let ids := instructorIds db
  if ids.length = 0 then
    .error "No instructors found in the database"
  else
    .ok (ids.getD (r % ids.length) "")

/-- The instructor id `getRandomInstructor` picks when instructors exist. -/
def pickedInstructor (db : DB) (r : Nat) : String :=
  (instructorIds db).getD (r % (instructorIds db).length) ""

/-- Collapse every maximal run of whitespace into a single hyphen, as
`.replace(/\s+/g, '-')` does.  `prevWs` records whether the previous character
was part of a whitespace run already replaced. -/
def collapseWs (prevWs : Bool) : List Char → List Char
  | [] => []
  | c :: rest =>
    if c.isWhitespace then
      (if prevWs then [] else ['-']) ++ collapseWs true rest
    else
      c :: collapseWs false rest

/-- Keep only lowercase ASCII letters, digits and hyphens, as
`.replace(/[^a-z0-9-]/g, '')` does. -/
def slugKeep (c : Char) : Bool :=
  ('a' ≤ c && c ≤ 'z') || ('0' ≤ c && c ≤ '9') || c == '-'

/-- The slug normalization applied to titles:
`.toLowerCase().replace(/\s+/g, '-').replace(/[^a-z0-9-]/g, '')`. -/
def slugify (title : String) : String :=
  String.mk ((collapseWs false (title.data.map Char.toLower)).filter slugKeep)

/-- `s.slice(-8)`: the last 8 characters of `s` (all of `s` when shorter). -/
def sliceLast8 (s : String) : String :=
  String.mk (s.data.drop (s.data.length - 8))

/-- The slug of a created course: normalized title plus the last 8 characters
of the freshly generated course id. -/
def courseSlug (title courseId : String) : String :=
  slugify title ++ "-" ++ sliceLast8 courseId

/-- The nondeterministic inputs of one `createCourseTool.execute` run: the two
random draws, the generated course id, per-lesson generated ids (row id and
slug-suffix id, two separate `createId()` calls per lesson), and the database
insert oracles. -/
structure ToolNondet where
  rInstr : Nat
  rThumb : Nat
  courseId : String
  lessonId : Nat → String
  lessonSlugId : Nat → String
  courseInsertOk : Bool
  lessonInsertError : Option String

/-- The course row assembled by `createCourseTool` (the `values` of the course
insert; `rating` and `enrollmentCount` come from database defaults). -/
def mkCourseRow (inp : CreateCourseInput) (nd : ToolNondet)
    (validInstructorId : String) : Course :=
  { id := nd.courseId
    title := inp.title
    slug := courseSlug inp.title nd.courseId
    description := inp.description
    instructorId := validInstructorId
    thumbnail := getRandomThumbnail nd.rThumb
    category := inp.category
    tags := inp.tags
    level := inp.level
    duration := inp.duration
    price := "0"
    prerequisites := inp.prerequisites
    learningObjectives := inp.learningObjectives
    status := "published"
    rating := 0
    enrollmentCount := 0 }

/-- One lesson row of the batch insert, built from the lesson draft at
(0-based) index `i` of the input list: position `i + 1`, first lesson free. -/
def mkLessonRow (courseId : String) (nd : ToolNondet) (i : Nat)
    (l : LessonInput) : Lesson :=
  { id := nd.lessonId i
    courseId := courseId
    title := l.title
    slug := slugify l.title ++ "-" ++ sliceLast8 (nd.lessonSlugId i)
    description := l.description
    type := l.type
    content := l.content
    duration := l.duration
    order := i + 1
    isFree := i == 0 }

/-- The lesson rows for the drafts starting at index `i`
(`lessons.map((lesson, index) => ...)`, generalized over the start index). -/
def lessonRowsFrom (courseId : String) (nd : ToolNondet) (i : Nat) :
    List LessonInput → List Lesson
  | [] => []
  | l :: rest => mkLessonRow courseId nd i l :: lessonRowsFrom courseId nd (i + 1) rest

/-- All lesson rows of the batch insert (`lessonsToInsert`). -/
def lessonRows (courseId : String) (nd : ToolNondet)
    (ls : List LessonInput) : List Lesson :=
  lessonRowsFrom courseId nd 0 ls

/-- The success message
`Course "title" has been successfully created and published with N lessons.` -/
def successMessage (title : String) (n : Nat) : String :=
  "Course \"" ++ title ++ "\" has been successfully created and published with "
    ++ toString n ++ " lessons."

/-- `createCourseTool.execute`.  Returns the tool result together with the
database state after the run.  The outer try/catch of the source turns every
thrown error into `(success:false, error:'Failed to create course', message)`;
the three throw sites are the instructor lookup, the empty-returning course
insert, and the rethrow `Failed to create lessons: ...` around the lesson
batch insert. -/
def createCourseExecute (db : DB) (inp : CreateCourseInput) (nd : ToolNondet) :
    ToolResult × DB :=
  match getRandomInstructor db nd.rInstr with
  | .error msg => (.failure "Failed to create course" msg, db)
  | .ok validInstructorId =>
    let newCourse := mkCourseRow inp nd validInstructorId
    if nd.courseInsertOk then
      let db1 : DB := { db with courses := db.courses ++ [newCourse] }
      if inp.lessons.length > 0 then
        match nd.lessonInsertError with
        | some errMsg =>
          (.failure "Failed to create course"
            ("Failed to create lessons: " ++ errMsg), db1)
        | none =>
          let db2 : DB :=
            { db1 with lessons := db1.lessons ++ lessonRows nd.courseId nd inp.lessons }
          (.success newCourse inp.lessons.length
            (successMessage inp.title inp.lessons.length), db2)
      else
        (.success newCourse 0 (successMessage inp.title 0), db1)
    else
      (.failure "Failed to create course"
        "Course creation failed - no data returned from database", db)

/-- The drizzle ordering key `orderBy(courses.rating, courses.enrollmentCount)`
of the chat tools: bare columns, so SQL `ORDER BY rating ASC, enrollmentCount
ASC` — lexicographic, both components ascending. -/
def courseLE (a b : Course) : Bool :=
  a.rating < b.rating || (a.rating == b.rating && a.enrollmentCount ≤ b.enrollmentCount)

/-- Insert a course into a list sorted by `courseLE`, keeping it sorted. -/
def insertSorted (c : Course) : List Course → List Course
  | [] => [c]
  | d :: rest => if courseLE c d then c :: d :: rest else d :: insertSorted c rest

/-- Stable sort of the course rows by the `ORDER BY` key (a model of the
result-set ordering the database produces). -/
def sortCourses : List Course → List Course
  | [] => []
  | c :: rest => insertSorted c (sortCourses rest)

/-- Pairwise-adjacent check that a list is ordered by ascending rating and,
among equal ratings, ascending enrollment count. -/
def ascOrdered : List Course → Bool
  | [] => true
  | [_] => true
  | a :: b :: rest => courseLE a b && ascOrdered (b :: rest)

/-- Pairwise-adjacent check that a list is ordered by descending rating and,
among equal ratings, descending enrollment count (the ordering the spec
asserts for the listing tools). -/
def descOrdered : List Course → Bool
  | [] => true
  | [_] => true
  | a :: b :: rest =>
    (b.rating < a.rating || (b.rating == a.rating && b.enrollmentCount ≤ a.enrollmentCount))
      && descOrdered (b :: rest)

/-- Result payload of `getAllCoursesTool.execute` (success path). -/
structure GetAllCoursesResult where
  courses : List Course
  count : Nat
  totalShowing : Nat
  limit : Nat
  deriving Repr, DecidableEq

/-- `getAllCoursesTool.execute`: select all courses ordered by the `ORDER BY`
key, capped at `limit` (default 50); read-only, so the database state is
returned unchanged. -/
def getAllCoursesExecute (db : DB) (limit : Option Nat) : GetAllCoursesResult × DB :=
  let lim := limit.getD 50
  let courseList := (sortCourses db.courses).take lim
  ({ courses := courseList
     count := courseList.length
     totalShowing := courseList.length
     limit := lim }, db)

/-- Does `f` hold of some suffix of the list (the list itself included)? -/
def anySuffix (f : List Char → Bool) : List Char → Bool
  | [] => f []
  | c :: t => f (c :: t) || anySuffix f t

/-- Postgres LIKE pattern matching (case-insensitive, as ILIKE): `%` matches
any character sequence, `_` matches any single character, a backslash (the
default escape character) makes the following pattern character literal
(still compared up to ASCII case — escaping strips metacharacter status, not
the case folding), and every other pattern character matches itself up to
ASCII case.  A pattern ending in a lone escape character is an error in
Postgres; the route's pattern `'%' ++ query ++ '%'` always ends in `%` or in
an escaped `%`, so that case is unreachable, and it is modelled as matching
nothing. -/
def likeMatch : List Char → List Char → Bool
  | [], s => s.isEmpty
  | p :: ps, s =>
    if p = '%' then
      anySuffix (likeMatch ps) s
    else if p = '\\' then
      match ps with
      | [] => false
      | q :: ps2 =>
        match s with
        | [] => false
        | c :: t => (q.toLower = c.toLower) && likeMatch ps2 t
    else
      match s with
      | [] => false
      | c :: t => (p = '_' || p.toLower = c.toLower) && likeMatch ps t

/-- `ilike(column, '%' ++ query ++ '%')` applied to a column value. -/
def ilikeContains (column query : String) : Bool :=
  likeMatch ('%' :: query.data ++ ['%']) column.data

/-- Literal occurrence of `needle` as a contiguous run inside `hay`. -/
def listContains (needle : List Char) : List Char → Bool
  | [] => needle.isEmpty
  | c :: t => needle.isPrefixOf (c :: t) || listContains needle t

/-- Case-insensitive literal substring occurrence (the spec's reading of the
free-text filter). -/
def substrCI (column query : String) : Bool :=
  listContains (query.data.map Char.toLower) (column.data.map Char.toLower)

/-- The WHERE clause of `searchCoursesTool`: the free-text condition
(ILIKE over title, description and category) AND-ed with the optional exact
category and level filters; an absent parameter contributes no condition. -/
def searchWhere (query category level : Option String) (c : Course) : Bool :=
  (match query with
   | none => true
   | some q => ilikeContains c.title q || ilikeContains c.description q
       || ilikeContains c.category q)
  && (match category with
      | none => true
      | some cat => c.category == cat)
  && (match level with
      | none => true
      | some l => c.level == l)

/-- Result payload of `searchCoursesTool.execute` (success path). -/
structure SearchCoursesResult where
  courses : List Course
  count : Nat
  searchTerm : Option String
  category : Option String
  level : Option String
  limit : Nat
  deriving Repr, DecidableEq

/-- `searchCoursesTool.execute`: filter by the WHERE clause, order by the
`ORDER BY` key, cap at `limit` (default 20); read-only. -/
def searchCoursesExecute (db : DB) (query category level : Option String)
    (limit : Option Nat) : SearchCoursesResult × DB :=
  let lim := limit.getD 20
  let courseList :=
    (sortCourses (db.courses.filter (searchWhere query category level))).take lim
  ({ courses := courseList
     count := courseList.length
     searchTerm := query
     category := category
     level := level
     limit := lim }, db)

/-- Response body of `GET /ai/stats`: `totalCourses` is the number of rows of
the `select({count: courses.id})` result (one row per course), and
`aiGeneratedCourses` is the constant 0. -/
structure StatsResponse where
  totalCourses : Nat
  aiGeneratedCourses : Nat
  message : String
  deriving Repr, DecidableEq

/-- `GET /ai/stats` handler (success path); read-only. -/
def getStatsExecute (db : DB) : StatsResponse × DB :=
  ({ totalCourses := db.courses.length
     aiGeneratedCourses := 0
     message := "AI course generation is operational" }, db)

/-- One step of the model stream, as the Course Generation Workflow observes
it: the model either produces a text fragment or invokes the `createCourse`
tool (whose execution consumes fresh nondeterminism `nd`). -/
inductive ModelAction where
  | say (t : String)
  | callCreateCourse (inp : CreateCourseInput) (nd : ToolNondet)

/-- A chunk of `result.fullStream` that the collection loop inspects. -/
inductive Chunk where
  | textDelta (t : String)
  | toolResult (toolName : String) (result : ToolResult)
  deriving Repr, DecidableEq

/-- Run the model stream: tool invocations execute against the database (this
is how `streamText` produces `tool-result` chunks), text is passed through. -/
def runStream (db : DB) : List ModelAction → List Chunk × DB
  | [] => ([], db)
  | .say t :: rest =>
    let out := runStream db rest
    (.textDelta t :: out.1, out.2)
  | .callCreateCourse inp nd :: rest =>
    let step := createCourseExecute db inp nd
    let out := runStream step.2 rest
    (.toolResult "createCourse" step.1 :: out.1, out.2)

/-- Accumulator of the endpoint's `for await` loop over the stream:
`courseCreated`, `courseData` and the concatenated `aiResponse` text. -/
structure Collected where
  courseCreated : Bool
  courseData : Option ToolResult
  aiResponse : String
  deriving Repr, DecidableEq

/-- One iteration of the collection loop. -/
def stepChunk (acc : Collected) : Chunk → Collected
  | .textDelta t => { acc with aiResponse := acc.aiResponse ++ t }
  | .toolResult name r =>
    if name == "createCourse" then
      { acc with courseCreated := true, courseData := some r }
    else acc

/-- A JSON value of the endpoint's response bodies (shallow model). -/
inductive JVal where
  | s (v : String)
  | b (v : Bool)
  | course (c : Course)
  | toolData (r : Option ToolResult)
  deriving Repr, DecidableEq

/-- An HTTP response: status code and JSON object body as a key-value list. -/
structure HttpResponse where
  status : Nat
  body : List (String × JVal)
  deriving Repr, DecidableEq

/-- Look up a key of a response's JSON object body. -/
def HttpResponse.field (r : HttpResponse) (k : String) : Option JVal :=
  (r.body.find? (fun p => p.1 == k)).map (fun p => p.2)

/-- JavaScript `a || b` on strings (empty string is falsy). -/
def jsOr (a b : String) : String :=
  if a == "" then b else a

/-- The `details` field of the failure response:
`courseData?.message || courseData?.error || 'AI did not call the createCourse
tool'` (a success payload carries no `error` field). -/
def detailsOf : Option ToolResult → String
  | none => "AI did not call the createCourse tool"
  | some (.success _ _ msg) => jsOr msg "AI did not call the createCourse tool"
  | some (.failure err msg) => jsOr msg (jsOr err "AI did not call the createCourse tool")

/-- The response assembly of `POST /ai/generate-course` after the stream has
been consumed: 200 with `success:true` when the tool ran and reported success,
otherwise 500 with `error`, `details`, `aiResponse` and `debugInfo`. -/
def generateCourseRespond (courseCreated : Bool) (courseData : Option ToolResult)
    (aiResponse : String) : HttpResponse :=
  match courseCreated, courseData with
  | true, some (.success c _ msg) =>
    { status := 200
      body := [("success", .b true), ("course", .course c),
               ("message", .s msg), ("aiResponse", .s aiResponse.trim)] }
  | _, data =>
    { status := 500
      body := [("error", .s "Failed to create course"),
               ("details", .s (detailsOf data)),
               ("aiResponse", .s aiResponse.trim),
               ("debugInfo", .toolData data)] }

/-- `POST /ai/generate-course`: validate the prompt (min length 10, 400
otherwise, before any model call), run the model stream, collect its chunks,
and assemble the final response.  The course/category context reads that
ground the system prompt are read-only and are not modelled. -/
def generateCourseEndpoint (db : DB) (prompt : String)
    (actions : List ModelAction) : HttpResponse × DB :=
  if prompt.length < 10 then
    ({ status := 400, body := [("error", .s "Invalid request data")] }, db)
  else
    let run := runStream db actions
    let col := run.1.foldl stepChunk ⟨false, none, ""⟩
    (generateCourseRespond col.courseCreated col.courseData col.aiResponse, run.2)

/-! Helper lemmas. -/

/-- String append concatenates the underlying character lists. -/
theorem string_data_append (a b : String) : (a ++ b).data = a.data ++ b.data := by
  cases a; cases b; rfl

/-- With at least one instructor account, `getRandomInstructor` succeeds and
returns the picked instructor id. -/
theorem getRandomInstructor_ok (db : DB) (r : Nat) (h : instructorIds db ≠ []) :
    getRandomInstructor db r = .ok (pickedInstructor db r) := by
  have hlen : (instructorIds db).length ≠ 0 := by
    simpa [List.length_eq_zero] using h
  simp [getRandomInstructor, pickedInstructor, hlen]

/-- With no instructor account, `getRandomInstructor` errors. -/
theorem getRandomInstructor_err (db : DB) (r : Nat) (h : instructorIds db = []) :
    getRandomInstructor db r = .error "No instructors found in the database" := by
  simp [getRandomInstructor, h]

/-- The picked instructor id really is one of the instructor ids. -/
theorem pickedInstructor_mem (db : DB) (r : Nat) (h : instructorIds db ≠ []) :
    pickedInstructor db r ∈ instructorIds db := by
  have hlen : 0 < (instructorIds db).length := by
    cases hids : instructorIds db with
    | nil => exact absurd hids h
    | cons a t => simp
  have hlt : r % (instructorIds db).length < (instructorIds db).length :=
    Nat.mod_lt _ hlen
  unfold pickedInstructor
  rw [List.getD_eq_getElem?_getD, List.getElem?_eq_getElem hlt]
  exact List.getElem_mem hlt

/-- Characterization of a successful `createCourseTool` run: instructors
exist, the course insert returns its row, and either there are no lesson
drafts or the lesson batch insert does not throw.  The run returns the
success payload and commits the course row and the lesson rows. -/
theorem createCourseExecute_success_eq (db : DB) (inp : CreateCourseInput)
    (nd : ToolNondet) (hi : instructorIds db ≠ []) (hok : nd.courseInsertOk = true)
    (hl : inp.lessons = [] ∨ nd.lessonInsertError = none) :
    createCourseExecute db inp nd =
      (.success (mkCourseRow inp nd (pickedInstructor db nd.rInstr))
        inp.lessons.length (successMessage inp.title inp.lessons.length),
       { db with
           courses := db.courses ++ [mkCourseRow inp nd (pickedInstructor db nd.rInstr)]
           lessons := db.lessons ++ lessonRows nd.courseId nd inp.lessons }) := by
  unfold createCourseExecute
  rw [getRandomInstructor_ok db nd.rInstr hi]
  cases hls : inp.lessons with
  | nil => simp [hok, hls, lessonRows, lessonRowsFrom]
  | cons l rest =>
    have hnone : nd.lessonInsertError = none := by
      rcases hl with h | h
      · rw [hls] at h; exact absurd h (by simp)
      · exact h
    simp [hok, hls, hnone]

/-- A failed lesson batch insert surfaces as the rethrown
`Failed to create lessons: ...` message, while the course row stays
committed and no lesson row is inserted. -/
theorem createCourseExecute_lessonFail_eq (db : DB) (inp : CreateCourseInput)
    (nd : ToolNondet) (e : String) (hi : instructorIds db ≠ [])
    (hok : nd.courseInsertOk = true) (hls : inp.lessons ≠ [])
    (herr : nd.lessonInsertError = some e) :
    createCourseExecute db inp nd =
      (.failure "Failed to create course" ("Failed to create lessons: " ++ e),
       { db with
           courses := db.courses ++ [mkCourseRow inp nd (pickedInstructor db nd.rInstr)] }) := by
  unfold createCourseExecute
  rw [getRandomInstructor_ok db nd.rInstr hi]
  cases hlsc : inp.lessons with
  | nil => exact absurd hlsc hls
  | cons l rest => simp [hok, herr]

/-- `createCourseTool` never reads the caller-supplied `instructorId`: the run
is unchanged under any replacement of that field. -/
theorem createCourseExecute_ignores_instructorId (db : DB)
    (inp : CreateCourseInput) (nd : ToolNondet) (x : String) :
    createCourseExecute db { inp with instructorId := x } nd =
      createCourseExecute db inp nd := by
  unfold createCourseExecute
  cases getRandomInstructor db nd.rInstr <;> rfl

/-- The ordering key is total. -/
theorem courseLE_total (a b : Course) : courseLE a b = true ∨ courseLE b a = true := by
  simp only [courseLE, Bool.or_eq_true, Bool.and_eq_true, decide_eq_true_eq, beq_iff_eq]
  omega

/-- Membership through sorted insertion. -/
theorem mem_insertSorted (c a : Course) :
    ∀ l : List Course, a ∈ insertSorted c l ↔ a = c ∨ a ∈ l := by
  intro l
  induction l with
  | nil => simp [insertSorted]
  | cons d rest ih =>
    by_cases h : courseLE c d
    · simp [insertSorted, h]
    · simp [insertSorted, h, ih]
      tauto

/-- Membership through sorting. -/
theorem mem_sortCourses (a : Course) :
    ∀ l : List Course, a ∈ sortCourses l ↔ a ∈ l := by
  intro l
  induction l with
  | nil => simp [sortCourses]
  | cons c rest ih => simp [sortCourses, mem_insertSorted, ih]

/-- Sorted insertion preserves the ascending adjacency invariant. -/
theorem ascOrdered_insertSorted (c : Course) :
    ∀ l : List Course, ascOrdered l = true → ascOrdered (insertSorted c l) = true := by
  intro l
  induction l with
  | nil => intro _; rfl
  | cons d rest ih =>
    intro h
    by_cases hcd : courseLE c d = true
    · rw [insertSorted, if_pos hcd]
      simp only [ascOrdered, Bool.and_eq_true]
      exact ⟨hcd, h⟩
    · have hdc : courseLE d c = true :=
        (courseLE_total c d).resolve_left (by simpa using hcd)
      rw [insertSorted, if_neg hcd]
      cases rest with
      | nil =>
        simp only [insertSorted, ascOrdered, Bool.and_eq_true]
        exact ⟨hdc, trivial⟩
      | cons e rest' =>
        simp only [ascOrdered, Bool.and_eq_true] at h
        obtain ⟨hde, htail⟩ := h
        have hins := ih htail
        by_cases hce : courseLE c e = true
        · rw [insertSorted, if_pos hce] at hins ⊢
          simp only [ascOrdered, Bool.and_eq_true] at hins ⊢
          exact ⟨hdc, hins⟩
        · rw [insertSorted, if_neg hce] at hins ⊢
          simp only [ascOrdered, Bool.and_eq_true] at hins ⊢
          exact ⟨hde, hins⟩

/-- The sort really sorts (by the ascending `ORDER BY` key). -/
theorem ascOrdered_sortCourses :
    ∀ l : List Course, ascOrdered (sortCourses l) = true := by
  intro l
  induction l with
  | nil => rfl
  | cons c rest ih => exact ascOrdered_insertSorted c _ ih

/-- Taking a prefix preserves the ascending adjacency invariant. -/
theorem ascOrdered_take :
    ∀ (l : List Course) (n : Nat), ascOrdered l = true → ascOrdered (l.take n) = true
  | [], n, _ => by simp [ascOrdered]
  | [a], n, _ => by cases n <;> simp [ascOrdered]
  | _ :: _ :: _, 0, _ => rfl
  | _ :: _ :: _, 1, _ => rfl
  | a :: b :: rest, (n + 2), h => by
    simp only [ascOrdered, Bool.and_eq_true] at h
    have hrec := ascOrdered_take (b :: rest) (n + 1) h.2
    simp only [List.take_succ_cons] at hrec ⊢
    simp only [ascOrdered, Bool.and_eq_true]
    exact ⟨h.1, hrec⟩

/-- The lesson rows' positions are exactly `i+1, i+2, ...` in input order. -/
theorem lessonRowsFrom_map_order (cid : String) (nd : ToolNondet) :
    ∀ (ls : List LessonInput) (i : Nat),
      (lessonRowsFrom cid nd i ls).map Lesson.order = List.range' (i + 1) ls.length
  | [], _ => by simp [lessonRowsFrom]
  | l :: rest, i => by
    rw [lessonRowsFrom, List.map_cons, lessonRowsFrom_map_order cid nd rest (i + 1)]
    simp [mkLessonRow, List.range'_succ]

/-- From a positive start index on, no lesson row is marked free. -/
theorem lessonRowsFrom_map_isFree_pos (cid : String) (nd : ToolNondet) :
    ∀ (ls : List LessonInput) (i : Nat), i ≠ 0 →
      (lessonRowsFrom cid nd i ls).map Lesson.isFree = List.replicate ls.length false
  | [], _, _ => by simp [lessonRowsFrom]
  | l :: rest, i, h => by
    have hb : (i == 0) = false := by simpa using h
    rw [lessonRowsFrom, List.map_cons,
      lessonRowsFrom_map_isFree_pos cid nd rest (i + 1) (by omega)]
    simp [mkLessonRow, List.replicate_succ, hb]

/-- The lesson rows carry the drafts' titles in input order. -/
theorem lessonRowsFrom_map_title (cid : String) (nd : ToolNondet) :
    ∀ (ls : List LessonInput) (i : Nat),
      (lessonRowsFrom cid nd i ls).map Lesson.title = ls.map LessonInput.title
  | [], _ => rfl
  | l :: rest, i => by
    rw [lessonRowsFrom, List.map_cons, List.map_cons,
      lessonRowsFrom_map_title cid nd rest (i + 1)]
    rfl

/-- One lesson row per lesson draft. -/
theorem lessonRowsFrom_length (cid : String) (nd : ToolNondet) :
    ∀ (ls : List LessonInput) (i : Nat),
      (lessonRowsFrom cid nd i ls).length = ls.length
  | [], _ => rfl
  | l :: rest, i => by
    rw [lessonRowsFrom, List.length_cons, List.length_cons,
      lessonRowsFrom_length cid nd rest (i + 1)]

/-- A text-only model stream emits only text-delta chunks and leaves the
database untouched. -/
theorem runStream_say (db : DB) :
    ∀ texts : List String,
      runStream db (texts.map ModelAction.say) = (texts.map Chunk.textDelta, db)
  | [] => rfl
  | t :: rest => by simp [runStream, runStream_say db rest]

/-- Folding the collection loop over text-delta chunks never sets
`courseCreated` or `courseData`. -/
theorem foldl_textDelta (texts : List String) :
    ∀ acc : Collected,
      ((texts.map Chunk.textDelta).foldl stepChunk acc).courseCreated = acc.courseCreated ∧
      ((texts.map Chunk.textDelta).foldl stepChunk acc).courseData = acc.courseData := by
  induction texts with
  | nil => intro acc; exact ⟨rfl, rfl⟩
  | cons t rest ih => intro acc; simpa [stepChunk] using ih _

/-- Distinct 8-character id suffixes force distinct course slugs even for one
and the same title. -/
theorem courseSlug_ne (t c1 c2 : String) (h : sliceLast8 c1 ≠ sliceLast8 c2) :
    courseSlug t c1 ≠ courseSlug t c2 := by
  intro he
  apply h
  have hd := congrArg String.data he
  rw [courseSlug, courseSlug, string_data_append, string_data_append,
    string_data_append, string_data_append] at hd
  have hx := List.append_cancel_left hd
  exact congrArg String.mk hx

/-- `anySuffix f` holds exactly when `f` holds of some suffix. -/
theorem anySuffix_iff (f : List Char → Bool) :
    ∀ s : List Char, (anySuffix f s = true ↔ ∃ t, t <:+ s ∧ f t = true)
  | [] => by
    constructor
    · intro h; exact ⟨[], List.suffix_rfl, h⟩
    · rintro ⟨t, ht, hm⟩
      rw [List.suffix_nil] at ht
      subst ht
      exact hm
  | c :: t0 => by
    rw [show anySuffix f (c :: t0) = (f (c :: t0) || anySuffix f t0) from rfl,
      Bool.or_eq_true, anySuffix_iff f t0]
    constructor
    · rintro (h | ⟨t, ht, hm⟩)
      · exact ⟨c :: t0, List.suffix_rfl, h⟩
      · exact ⟨t, ht.trans (List.suffix_cons c t0), hm⟩
    · rintro ⟨t, ht, hm⟩
      rcases List.suffix_cons_iff.mp ht with h1 | h2
      · subst h1; exact Or.inl hm
      · exact Or.inr ⟨t, h2, hm⟩

/-- Unfolding: a leading `%` delegates to the suffix search. -/
theorem likeMatch_percent_unfold (ps s : List Char) :
    likeMatch ('%' :: ps) s = anySuffix (likeMatch ps) s := by
  cases ps <;> cases s <;> simp [likeMatch]

/-- Unfolding: a plain (non-`%`) leading pattern character never matches the
empty string. -/
theorem likeMatch_plain_nil (p : Char) (ps : List Char) (hp1 : p ≠ '%') :
    likeMatch (p :: ps) [] = false := by
  cases ps <;> simp [likeMatch, hp1]

/-- Unfolding: a plain (non-`%`, non-escape) leading pattern character is
compared case-insensitively (or is `_`) against the string's head. -/
theorem likeMatch_plain_cons (p : Char) (ps : List Char) (c : Char)
    (t : List Char) (hp1 : p ≠ '%') (hp2 : p ≠ '\\') :
    likeMatch (p :: ps) (c :: t) =
      ((decide (p = '_') || decide (p.toLower = c.toLower)) && likeMatch ps t) := by
  cases ps <;> simp [likeMatch, hp1, hp2]

/-- A leading `%` matches exactly when the rest of the pattern matches some
suffix of the string. -/
theorem likeMatch_percent_iff (ps : List Char) (s : List Char) :
    likeMatch ('%' :: ps) s = true ↔ ∃ t, t <:+ s ∧ likeMatch ps t = true := by
  rw [likeMatch_percent_unfold]
  exact anySuffix_iff (likeMatch ps) s

/-- A lone `%` pattern matches everything. -/
theorem likeMatch_percent_nil (s : List Char) : likeMatch ['%'] s = true := by
  rw [likeMatch_percent_iff]
  exact ⟨[], List.nil_suffix, rfl⟩

/-- A wildcard- and escape-free pattern followed by `%` matches exactly when
the pattern is a case-insensitive prefix of the string. -/
theorem likeMatch_plain_iff :
    ∀ (q s : List Char), (∀ c ∈ q, c ≠ '%' ∧ c ≠ '_' ∧ c ≠ '\\') →
      (likeMatch (q ++ ['%']) s = true ↔
        (q.map Char.toLower).isPrefixOf (s.map Char.toLower) = true)
  | [], s, _ => by
    simp [likeMatch_percent_nil s, List.isPrefixOf]
  | p :: q', s, hq => by
    have hp := hq p (List.mem_cons_self _ _)
    cases s with
    | nil =>
      rw [List.cons_append, likeMatch_plain_nil p (q' ++ ['%']) hp.1]
      simp [List.isPrefixOf]
    | cons c t =>
      have ih := likeMatch_plain_iff q' t (fun x hx => hq x (List.mem_cons_of_mem _ hx))
      rw [List.cons_append, likeMatch_plain_cons p (q' ++ ['%']) c t hp.1 hp.2.2]
      simp only [List.map_cons, List.isPrefixOf, Bool.and_eq_true, Bool.or_eq_true,
        decide_eq_true_eq, beq_iff_eq, hp.2.1, false_or]
      exact and_congr Iff.rfl ih

/-- `listContains` finds the needle exactly when it is a prefix of some
suffix of the haystack. -/
theorem listContains_iff (n : List Char) :
    ∀ h : List Char,
      (listContains n h = true ↔ ∃ t, t <:+ h ∧ n.isPrefixOf t = true) := by
  intro h
  induction h with
  | nil =>
    constructor
    · intro hc
      refine ⟨[], List.suffix_rfl, ?_⟩
      cases n with
      | nil => rfl
      | cons a as => simp [listContains] at hc
    · rintro ⟨t, ht, hm⟩
      rw [List.suffix_nil] at ht
      subst ht
      cases n with
      | nil => rfl
      | cons a as => simp at hm
  | cons c t0 ih =>
    rw [show listContains n (c :: t0) = (n.isPrefixOf (c :: t0) || listContains n t0) from rfl,
      Bool.or_eq_true, ih]
    constructor
    · rintro (hp | ⟨t, ht, hm⟩)
      · exact ⟨c :: t0, List.suffix_rfl, hp⟩
      · exact ⟨t, ht.trans (List.suffix_cons c t0), hm⟩
    · rintro ⟨t, ht, hm⟩
      rcases List.suffix_cons_iff.mp ht with h1 | h2
      · subst h1; exact Or.inl hm
      · exact Or.inr ⟨t, h2, hm⟩

/-- Transport a property of mapped suffixes to suffixes of the mapped list. -/
theorem exists_suffix_map_iff (f : Char → Char) (s : List Char)
    (P : List Char → Prop) :
    (∃ t, t <:+ s ∧ P (t.map f)) ↔ (∃ u, u <:+ s.map f ∧ P u) := by
  constructor
  · rintro ⟨t, ht, hp⟩
    exact ⟨t.map f, ht.map f, hp⟩
  · rintro ⟨u, hu, hp⟩
    have hk := List.suffix_iff_eq_drop.mp hu
    refine ⟨s.drop ((s.map f).length - u.length), List.drop_suffix _ s, ?_⟩
    rw [List.map_drop, ← hk]
    exact hp

/-- For queries free of LIKE wildcards and of the escape character, the
route's ILIKE condition is exactly case-insensitive substring occurrence. -/
theorem ilikeContains_eq_substrCI (col q : String)
    (hq : ∀ c ∈ q.data, c ≠ '%' ∧ c ≠ '_' ∧ c ≠ '\\') :
    ilikeContains col q = substrCI col q := by
  have h1 : ilikeContains col q = true ↔ substrCI col q = true := by
    rw [ilikeContains, substrCI, listContains_iff]
    rw [show ('%' :: q.data ++ ['%']) = '%' :: (q.data ++ ['%']) from rfl]
    rw [likeMatch_percent_iff]
    rw [← exists_suffix_map_iff Char.toLower col.data
      (fun u => (q.data.map Char.toLower).isPrefixOf u = true)]
    exact exists_congr fun t =>
      and_congr Iff.rfl (likeMatch_plain_iff q.data t hq)
  cases hb : substrCI col q with
  | true => exact h1.mpr hb
  | false =>
    cases hb2 : ilikeContains col q with
    | true => rw [hb2] at h1; rw [← hb, h1.mp rfl]
    | false => rfl

/-- The course of a tool result, when it reports success. -/
def ToolResult.createdCourse : ToolResult → Option Course
  | .success c _ _ => some c
  | .failure _ _ => none

/-- The lesson-failure message starts with an F, so it can be told apart from
the other failure messages by the first character alone. -/
theorem failedLessons_head (e : String) :
    ("Failed to create lessons: " ++ e).data.head? = some 'F' := by
  rw [string_data_append]; rfl

/-! Concrete fixtures used by witnesses and counterexamples. -/

/-- A database state with no rows at all (in particular no instructors). -/
def emptyDB : DB :=
  { users := [], courses := [], lessons := [], categories := [] }

/-- A database state with two instructor accounts. -/
def twoInstructorDB : DB :=
  { users := [{ id := "alice", role := "instructor" },
              { id := "bob", role := "instructor" }],
    courses := [], lessons := [], categories := [] }

/-- A concrete lesson draft. -/
def lessonDraft1 : LessonInput :=
  { title := "Lesson One", description := "d1", type := "video",
    duration := "45 min", content := "c1" }

/-- A second concrete lesson draft. -/
def lessonDraft2 : LessonInput :=
  { title := "Lesson Two", description := "d2", type := "text",
    duration := "30 min", content := "c2" }

/-- A concrete tool input carrying the given instructor id and lesson drafts. -/
def sampleInput (instructorId : String) (lessons : List LessonInput) :
    CreateCourseInput :=
  { title := "Intro to Observability", description := "desc",
    category := "Engineering", level := "beginner", duration := "8 hours",
    tags := [], prerequisites := [], learningObjectives := [],
    lessons := lessons, instructorId := instructorId }

/-- A concrete nondeterminism bundle: the instructor draw lands on index 1,
all inserts succeed. -/
def sampleNondet : ToolNondet :=
  { rInstr := 1, rThumb := 0, courseId := "abcdefgh12345678",
    lessonId := fun _ => "lessonid12345678",
    lessonSlugId := fun _ => "lessonslugabcdef",
    courseInsertOk := true, lessonInsertError := none }

/-- A minimal catalog course row with the given id, rating and enrollment. -/
def testCourse (id : String) (rating enr : Int) : Course :=
  { id := id, title := id, slug := id, description := id, instructorId := "i",
    thumbnail := "t", category := "cat", tags := [], level := "beginner",
    duration := "1h", price := "0", prerequisites := [],
    learningObjectives := [], status := "published", rating := rating,
    enrollmentCount := enr }

/-! Claims. -/

/-- C10: for every database state, the GET /ai/stats response reports
`aiGeneratedCourses` as the constant 0 and `totalCourses` as the number of
course rows, with no side effect on the database. -/
theorem claim_C10_stats (db : DB) :
    (getStatsExecute db).1.aiGeneratedCourses = 0 ∧
    (getStatsExecute db).1.totalCourses = db.courses.length ∧
    (getStatsExecute db).2 = db :=
  ⟨rfl, rfl, rfl⟩

/-- C4: with zero instructor accounts, `createCourseWithLessons` fails with
the message that no instructors were found and leaves the database state
completely unchanged (no course row, no lesson row). -/
theorem claim_C4_no_instructors (db : DB) (inp : CreateCourseInput)
    (nd : ToolNondet) (h : instructorIds db = []) :
    createCourseExecute db inp nd =
      (.failure "Failed to create course" "No instructors found in the database",
       db) := by
  unfold createCourseExecute
  rw [getRandomInstructor_err db nd.rInstr h]

/-- C4 witness: the no-instructor failure on the empty database. -/
theorem claim_C4_witness :
    createCourseExecute emptyDB (sampleInput "alice" []) sampleNondet =
      (.failure "Failed to create course" "No instructors found in the database",
       emptyDB) :=
  claim_C4_no_instructors emptyDB (sampleInput "alice" []) sampleNondet rfl

/-- C3: when the course insert succeeds but the lesson batch insert throws,
the tool fails with a message that names lesson insertion specifically (and
differs from the course-creation and no-instructor failure messages), while
the course row stays committed and no lesson row is inserted. -/
theorem claim_C3_lesson_failure (db : DB) (inp : CreateCourseInput)
    (nd : ToolNondet) (e : String) (hi : instructorIds db ≠ [])
    (hok : nd.courseInsertOk = true) (hls : inp.lessons ≠ [])
    (herr : nd.lessonInsertError = some e) :
    createCourseExecute db inp nd =
      (.failure "Failed to create course" ("Failed to create lessons: " ++ e),
       { db with
           courses := db.courses ++
             [mkCourseRow inp nd (pickedInstructor db nd.rInstr)] }) ∧
    ("Failed to create lessons: " ++ e) ≠
      "Course creation failed - no data returned from database" ∧
    ("Failed to create lessons: " ++ e) ≠ "No instructors found in the database" := by
  refine ⟨createCourseExecute_lessonFail_eq db inp nd e hi hok hls herr, ?_, ?_⟩
  · intro h
    have h2 := congrArg (fun s => s.data.head?) h
    simp only [failedLessons_head] at h2
    exact absurd h2 (by decide)
  · intro h
    have h2 := congrArg (fun s => s.data.head?) h
    simp only [failedLessons_head] at h2
    exact absurd h2 (by decide)

/-- C3 witness: a concrete run whose lesson insert throws. -/
theorem claim_C3_witness :
    createCourseExecute twoInstructorDB (sampleInput "alice" [lessonDraft1])
        { sampleNondet with lessonInsertError := some "insert failed" } =
      (.failure "Failed to create course"
        ("Failed to create lessons: " ++ "insert failed"),
       { twoInstructorDB with
           courses := twoInstructorDB.courses ++
             [mkCourseRow (sampleInput "alice" [lessonDraft1])
               { sampleNondet with lessonInsertError := some "insert failed" }
               (pickedInstructor twoInstructorDB 1)] }) :=
  (claim_C3_lesson_failure twoInstructorDB (sampleInput "alice" [lessonDraft1])
    { sampleNondet with lessonInsertError := some "insert failed" }
    "insert failed" (by decide) rfl (by decide) rfl).1

/-- C8: every successful `createCourseWithLessons` run returns the
success/course/lessonsCreated/message payload with `lessonsCreated` equal to
the input lesson count (0 included, the course still being created), and the
inserted course row has status `published` and price `0`. -/
theorem claim_C8_success_shape (db : DB) (inp : CreateCourseInput)
    (nd : ToolNondet) (hi : instructorIds db ≠ [])
    (hok : nd.courseInsertOk = true)
    (hl : inp.lessons = [] ∨ nd.lessonInsertError = none) :
    (createCourseExecute db inp nd).1 =
      ToolResult.success (mkCourseRow inp nd (pickedInstructor db nd.rInstr))
        inp.lessons.length (successMessage inp.title inp.lessons.length) ∧
    (mkCourseRow inp nd (pickedInstructor db nd.rInstr)).status = "published" ∧
    (mkCourseRow inp nd (pickedInstructor db nd.rInstr)).price = "0" ∧
    (createCourseExecute db inp nd).2.courses =
      db.courses ++ [mkCourseRow inp nd (pickedInstructor db nd.rInstr)] := by
  rw [createCourseExecute_success_eq db inp nd hi hok hl]
  exact ⟨rfl, rfl, rfl, rfl⟩

/-- C8 witness: a successful run with an empty lesson list reports
`lessonsCreated = 0` and still commits the course row. -/
theorem claim_C8_witness :
    (createCourseExecute twoInstructorDB (sampleInput "alice" []) sampleNondet).1 =
      ToolResult.success
        (mkCourseRow (sampleInput "alice" []) sampleNondet
          (pickedInstructor twoInstructorDB 1))
        0 (successMessage "Intro to Observability" 0) ∧
    (mkCourseRow (sampleInput "alice" []) sampleNondet
      (pickedInstructor twoInstructorDB 1)).status = "published" :=
  ⟨(claim_C8_success_shape twoInstructorDB (sampleInput "alice" []) sampleNondet
      (by decide) rfl (Or.inl rfl)).1,
   (claim_C8_success_shape twoInstructorDB (sampleInput "alice" []) sampleNondet
      (by decide) rfl (Or.inl rfl)).2.1⟩

/-- C1 counterexample: the claim says a valid supplied `instructorId` is
honored, but on a database where "alice" is a valid instructor the run with
`instructorId = "alice"` creates the course for "bob": the supplied id is
ignored and the random draw decides. -/
theorem claim_C1_counterexample :
    "alice" ∈ instructorIds twoInstructorDB ∧
    (sampleInput "alice" []).instructorId = "alice" ∧
    ((createCourseExecute twoInstructorDB (sampleInput "alice" []) sampleNondet).1.createdCourse.map
        Course.instructorId = some "bob") ∧
    some "bob" ≠ some "alice" := by
  refine ⟨by decide, rfl, ?_, by decide⟩
  rfl

/-- C1 (amended): instructor resolution ignores the caller-supplied id
entirely: on success the created course's instructor is the uniformly drawn
member of the existing instructor accounts, the run result is invariant under
any replacement of the supplied `instructorId`, and the whole call fails with
the no-instructors message when no instructor accounts exist. -/
theorem claim_C1_amended :
    (∀ (db : DB) (inp : CreateCourseInput) (nd : ToolNondet),
      instructorIds db ≠ [] → nd.courseInsertOk = true →
      (inp.lessons = [] ∨ nd.lessonInsertError = none) →
      ((createCourseExecute db inp nd).1.createdCourse.map Course.instructorId =
        some (pickedInstructor db nd.rInstr)) ∧
      pickedInstructor db nd.rInstr ∈ instructorIds db) ∧
    (∀ (db : DB) (inp : CreateCourseInput) (nd : ToolNondet) (x : String),
      createCourseExecute db { inp with instructorId := x } nd =
        createCourseExecute db inp nd) ∧
    (∀ (db : DB) (inp : CreateCourseInput) (nd : ToolNondet),
      instructorIds db = [] →
      createCourseExecute db inp nd =
        (.failure "Failed to create course" "No instructors found in the database",
         db)) := by
  refine ⟨?_, createCourseExecute_ignores_instructorId, ?_⟩
  · intro db inp nd hi hok hl
    rw [createCourseExecute_success_eq db inp nd hi hok hl]
    exact ⟨rfl, pickedInstructor_mem db nd.rInstr hi⟩
  · intro db inp nd h
    unfold createCourseExecute
    rw [getRandomInstructor_err db nd.rInstr h]

/-- C1 witness: the amended statement instantiated on concrete runs. -/
theorem claim_C1_amended_witness :
    ((createCourseExecute twoInstructorDB (sampleInput "alice" []) sampleNondet).1.createdCourse.map
        Course.instructorId = some (pickedInstructor twoInstructorDB 1)) ∧
    createCourseExecute emptyDB
        { sampleInput "alice" [] with instructorId := "zed" } sampleNondet =
      createCourseExecute emptyDB (sampleInput "alice" []) sampleNondet ∧
    createCourseExecute emptyDB (sampleInput "alice" []) sampleNondet =
      (.failure "Failed to create course" "No instructors found in the database",
       emptyDB) :=
  ⟨(claim_C1_amended.1 twoInstructorDB (sampleInput "alice" []) sampleNondet
      (by decide) rfl (Or.inl rfl)).1,
   claim_C1_amended.2.1 emptyDB (sampleInput "alice" []) sampleNondet "zed",
   claim_C1_amended.2.2 emptyDB (sampleInput "alice" []) sampleNondet rfl⟩

/-- C5: a successful run with a non-empty lesson list of length N commits
lesson rows whose positions are exactly 1..N taken from input list order,
with exactly the first lesson marked free. -/
theorem claim_C5_lesson_positions (db : DB) (inp : CreateCourseInput)
    (nd : ToolNondet) (hi : instructorIds db ≠ [])
    (hok : nd.courseInsertOk = true) (herr : nd.lessonInsertError = none)
    (hne : inp.lessons ≠ []) :
    (createCourseExecute db inp nd).2.lessons =
      db.lessons ++ lessonRows nd.courseId nd inp.lessons ∧
    (lessonRows nd.courseId nd inp.lessons).map Lesson.order =
      List.range' 1 inp.lessons.length ∧
    (lessonRows nd.courseId nd inp.lessons).map Lesson.isFree =
      true :: List.replicate (inp.lessons.length - 1) false ∧
    (lessonRows nd.courseId nd inp.lessons).map Lesson.title =
      inp.lessons.map LessonInput.title := by
  refine ⟨?_, ?_, ?_, lessonRowsFrom_map_title nd.courseId nd inp.lessons 0⟩
  · rw [createCourseExecute_success_eq db inp nd hi hok (Or.inr herr)]
  · simpa using lessonRowsFrom_map_order nd.courseId nd inp.lessons 0
  · cases hl : inp.lessons with
    | nil => exact absurd hl hne
    | cons l rest =>
      rw [lessonRows, lessonRowsFrom, List.map_cons,
        lessonRowsFrom_map_isFree_pos nd.courseId nd rest 1 (by omega)]
      simp [mkLessonRow]

/-- C5 witness: a successful two-lesson run gets positions [1, 2] and free
flags [true, false]. -/
theorem claim_C5_witness :
    (lessonRows sampleNondet.courseId sampleNondet
        (sampleInput "alice" [lessonDraft1, lessonDraft2]).lessons).map Lesson.order =
      List.range' 1 2 ∧
    (lessonRows sampleNondet.courseId sampleNondet
        (sampleInput "alice" [lessonDraft1, lessonDraft2]).lessons).map Lesson.isFree =
      [true, false] :=
  ⟨(claim_C5_lesson_positions twoInstructorDB
      (sampleInput "alice" [lessonDraft1, lessonDraft2]) sampleNondet
      (by decide) rfl rfl (by decide)).2.1,
   (claim_C5_lesson_positions twoInstructorDB
      (sampleInput "alice" [lessonDraft1, lessonDraft2]) sampleNondet
      (by decide) rfl rfl (by decide)).2.2.1⟩

/-- A two-course catalog with ratings 1 and 2. -/
def twoCourseDB : DB :=
  { users := [], courses := [testCourse "low" 1 0, testCourse "high" 2 0],
    lessons := [], categories := [] }

/-- C2 counterexample: on a catalog with ratings 1 and 2, `listAllCourses`
returns the courses in ascending rating order, refuting the claimed
descending order. -/
theorem claim_C2_counterexample :
    (getAllCoursesExecute twoCourseDB none).1.courses =
      [testCourse "low" 1 0, testCourse "high" 2 0] ∧
    descOrdered ((getAllCoursesExecute twoCourseDB none).1.courses) = false ∧
    (testCourse "low" 1 0).rating < (testCourse "high" 2 0).rating := by
  refine ⟨rfl, ?_, by decide⟩
  rfl

/-- C2 (amended): `listAllCourses` returns at most `limit` courses (default
50), ordered by ascending rating and, among equal ratings, ascending
enrollment count; it mutates no state, every returned course is a catalog
row, and an empty result is a normal success (`count` mirrors the list). -/
theorem claim_C2_amended (db : DB) (limit : Option Nat) :
    ((getAllCoursesExecute db limit).1.courses).length ≤ limit.getD 50 ∧
    ascOrdered ((getAllCoursesExecute db limit).1.courses) = true ∧
    (∀ c, c ∈ (getAllCoursesExecute db limit).1.courses → c ∈ db.courses) ∧
    (getAllCoursesExecute db limit).2 = db ∧
    (getAllCoursesExecute db limit).1.count =
      ((getAllCoursesExecute db limit).1.courses).length := by
  refine ⟨List.length_take_le _ _, ?_, ?_, rfl, rfl⟩
  · exact ascOrdered_take _ _ (ascOrdered_sortCourses db.courses)
  · intro c hc
    exact (mem_sortCourses c db.courses).mp (List.mem_of_mem_take hc)

/-- C2 witness: the amended statement instantiated on the two-course catalog,
with the membership hypothesis discharged on a concrete returned course. -/
theorem claim_C2_amended_witness :
    testCourse "low" 1 0 ∈ twoCourseDB.courses :=
  (claim_C2_amended twoCourseDB none).2.2.1 (testCourse "low" 1 0) (by decide)

/-- The all-absent WHERE clause accepts every row. -/
theorem filter_searchWhere_none :
    ∀ l : List Course, l.filter (searchWhere none none none) = l
  | [] => rfl
  | c :: rest => by
    simp [List.filter_cons, show searchWhere none none none c = true from rfl,
      filter_searchWhere_none rest]

/-- A one-course catalog whose title "xay" is ILIKE-matched by the
wildcard-bearing query "x%y" that is not a literal substring of anything in
the row. -/
def wildcardDB : DB :=
  { users := [], courses := [testCourse "xay" 1 0], lessons := [],
    categories := [] }

/-- C6 counterexample: the query "x%y" (legal — free text is unconstrained)
returns the course titled "xay" because `%` acts as an SQL wildcard inside
the interpolated ILIKE pattern, yet "x%y" is not a case-insensitive literal
substring of the course's title, description or category, refuting the
claimed substring semantics. -/
theorem claim_C6_counterexample :
    (searchCoursesExecute wildcardDB (some "x%y") none none none).1.courses =
      [testCourse "xay" 1 0] ∧
    substrCI (testCourse "xay" 1 0).title "x%y" = false ∧
    substrCI (testCourse "xay" 1 0).description "x%y" = false ∧
    substrCI (testCourse "xay" 1 0).category "x%y" = false := by
  refine ⟨rfl, ?_, ?_, ?_⟩ <;> rfl

/-- C6 (amended): every course returned by `searchCourses` satisfies all
supplied filters, where category and level are exact equalities and the
free-text condition is the Postgres ILIKE pattern `%query%` (so `%` and `_`
in the query act as wildcards unless backslash-escaped, and a backslash in
the query escapes the following character); for queries free of wildcard and
escape characters that condition is exactly case-insensitive substring
occurrence in title/description/category; an all-absent call is the
unfiltered list capped at `limit`, default 20.  The last conjunct records the
escape semantics on concrete strings: the query `a\b` ILIKE-matches the
literal text `ab` and not a literal `a\b`. -/
theorem claim_C6_amended :
    (∀ (db : DB) (query category level : Option String) (limit : Option Nat)
       (c : Course),
      c ∈ (searchCoursesExecute db query category level limit).1.courses →
      searchWhere query category level c = true ∧ c ∈ db.courses) ∧
    (∀ (db : DB) (limit : Option Nat),
      (searchCoursesExecute db none none none limit).1.courses =
        (sortCourses db.courses).take (limit.getD 20)) ∧
    (∀ col q : String, (∀ ch ∈ q.data, ch ≠ '%' ∧ ch ≠ '_' ∧ ch ≠ '\\') →
      ilikeContains col q = substrCI col q) ∧
    (ilikeContains "lab" "a\\b" = true ∧ ilikeContains "xa\\by" "a\\b" = false) := by
  refine ⟨?_, ?_, ilikeContains_eq_substrCI, by decide, by decide⟩
  · intro db query category level limit c hc
    have h2 := (mem_sortCourses c _).mp (List.mem_of_mem_take hc)
    have h3 := List.mem_filter.mp h2
    exact ⟨h3.2, h3.1⟩
  · intro db limit
    show ((sortCourses (db.courses.filter (searchWhere none none none))).take
      (limit.getD 20)) = (sortCourses db.courses).take (limit.getD 20)
    rw [filter_searchWhere_none]

/-- C6 witness: the amended statement instantiated on a concrete hit — the
query "xa" matches the course titled "xay" and that course is a catalog row —
and on the wildcard- and escape-free equivalence at concrete strings. -/
theorem claim_C6_amended_witness :
    (searchWhere (some "xa") none none (testCourse "xay" 1 0) = true ∧
      testCourse "xay" 1 0 ∈ wildcardDB.courses) ∧
    ilikeContains "Hello World" "o w" = substrCI "Hello World" "o w" :=
  ⟨claim_C6_amended.1 wildcardDB (some "xa") none none none
      (testCourse "xay" 1 0) (by decide),
   claim_C6_amended.2.2.1 "Hello World" "o w" (by decide)⟩

/-- C7 counterexample: on a text-only model stream the endpoint does return
HTTP 500 and creates no course row, but the failure body carries no `success`
key at all — the claimed `success:false` field is absent. -/
theorem claim_C7_counterexample :
    (generateCourseEndpoint twoInstructorDB "hello world"
        [ModelAction.say "just text"]).1.status = 500 ∧
    (generateCourseEndpoint twoInstructorDB "hello world"
        [ModelAction.say "just text"]).1.field "success" = none ∧
    (generateCourseEndpoint twoInstructorDB "hello world"
        [ModelAction.say "just text"]).1.field "success" ≠ some (JVal.b false) ∧
    (generateCourseEndpoint twoInstructorDB "hello world"
        [ModelAction.say "just text"]).2 = twoInstructorDB := by
  refine ⟨rfl, rfl, ?_, rfl⟩
  intro h
  rw [show (generateCourseEndpoint twoInstructorDB "hello world"
    [ModelAction.say "just text"]).1.field "success" = none from rfl] at h
  exact Option.noConfusion h

/-- C7 (amended): when the model stream produces only text and never invokes
the course-creation tool, the workflow responds with HTTP 500 whose `details`
diagnostic is exactly the policy-failure text distinguishing it from a
tool-call failure, whose body has no `success` field, and the database is
unchanged (no course row created). -/
theorem claim_C7_amended (db : DB) (prompt : String) (texts : List String)
    (hp : 10 ≤ prompt.length) :
    (generateCourseEndpoint db prompt (texts.map ModelAction.say)).1.status = 500 ∧
    (generateCourseEndpoint db prompt (texts.map ModelAction.say)).1.field "details" =
      some (.s "AI did not call the createCourse tool") ∧
    (generateCourseEndpoint db prompt (texts.map ModelAction.say)).1.field "success" =
      none ∧
    (generateCourseEndpoint db prompt (texts.map ModelAction.say)).2 = db := by
  have hnp : ¬ (prompt.length < 10) := by omega
  obtain ⟨hcreated, hdata⟩ := foldl_textDelta texts ⟨false, none, ""⟩
  unfold generateCourseEndpoint
  rw [if_neg hnp, runStream_say db texts]
  refine ⟨?_, ?_, ?_, rfl⟩ <;>
    simp [generateCourseRespond, hcreated, hdata, HttpResponse.field,
      List.find?, detailsOf]

/-- C7 witness: the amended statement instantiated on a concrete text-only
stream. -/
theorem claim_C7_amended_witness :
    (generateCourseEndpoint emptyDB "please make a course"
        (["chatter"].map ModelAction.say)).1.status = 500 ∧
    (generateCourseEndpoint emptyDB "please make a course"
        (["chatter"].map ModelAction.say)).1.field "details" =
      some (.s "AI did not call the createCourse tool") ∧
    (generateCourseEndpoint emptyDB "please make a course"
        (["chatter"].map ModelAction.say)).1.field "success" = none ∧
    (generateCourseEndpoint emptyDB "please make a course"
        (["chatter"].map ModelAction.say)).2 = emptyDB :=
  claim_C7_amended emptyDB "please make a course" ["chatter"] (by decide)

/-- C9: two successful runs with identical titles persist two distinct course
rows whose slugs are the normalized title suffixed with the last 8 characters
of each run's freshly generated course id; distinct suffixes force distinct
slugs. -/
theorem claim_C9_distinct_slugs (db : DB) (inp1 inp2 : CreateCourseInput)
    (nd1 nd2 : ToolNondet) (hi : instructorIds db ≠ [])
    (h1ok : nd1.courseInsertOk = true)
    (h1l : inp1.lessons = [] ∨ nd1.lessonInsertError = none)
    (h2ok : nd2.courseInsertOk = true)
    (h2l : inp2.lessons = [] ∨ nd2.lessonInsertError = none)
    (ht : inp2.title = inp1.title)
    (hsuf : sliceLast8 nd1.courseId ≠ sliceLast8 nd2.courseId) :
    ∃ c1 c2 db1 db2,
      createCourseExecute db inp1 nd1 =
        (.success c1 inp1.lessons.length
          (successMessage inp1.title inp1.lessons.length), db1) ∧
      createCourseExecute db1 inp2 nd2 =
        (.success c2 inp2.lessons.length
          (successMessage inp2.title inp2.lessons.length), db2) ∧
      c1 ∈ db2.courses ∧ c2 ∈ db2.courses ∧
      c1.slug = slugify inp1.title ++ "-" ++ sliceLast8 nd1.courseId ∧
      c2.slug = slugify inp1.title ++ "-" ++ sliceLast8 nd2.courseId ∧
      c1.slug ≠ c2.slug ∧ c1 ≠ c2 := by
  have h1 := createCourseExecute_success_eq db inp1 nd1 hi h1ok h1l
  have h2 := createCourseExecute_success_eq
    { db with
        courses := db.courses ++ [mkCourseRow inp1 nd1 (pickedInstructor db nd1.rInstr)]
        lessons := db.lessons ++ lessonRows nd1.courseId nd1 inp1.lessons }
    inp2 nd2 hi h2ok h2l
  have hslugne : courseSlug inp1.title nd1.courseId ≠ courseSlug inp1.title nd2.courseId :=
    courseSlug_ne inp1.title nd1.courseId nd2.courseId hsuf
  refine ⟨_, _, _, _, h1, h2, ?_, ?_, rfl, ?_, ?_, ?_⟩
  · simp
  · simp
  · show courseSlug inp2.title nd2.courseId = _
    rw [ht]
    rfl
  · show courseSlug inp1.title nd1.courseId ≠ courseSlug inp2.title nd2.courseId
    rw [ht]
    exact hslugne
  · intro h
    apply hslugne
    have := congrArg Course.slug h
    rw [show (mkCourseRow inp2 nd2 _).slug = courseSlug inp2.title nd2.courseId from rfl,
      ht] at this
    exact this

/-- C9 witness: two concrete runs with identical titles and distinct id
suffixes. -/
theorem claim_C9_witness :
    ∃ c1 c2 db1 db2,
      createCourseExecute twoInstructorDB (sampleInput "alice" []) sampleNondet =
        (.success c1 0 (successMessage "Intro to Observability" 0), db1) ∧
      createCourseExecute db1 (sampleInput "alice" [])
          { sampleNondet with courseId := "zyxwvuts87654321" } =
        (.success c2 0 (successMessage "Intro to Observability" 0), db2) ∧
      c1 ∈ db2.courses ∧ c2 ∈ db2.courses ∧
      c1.slug = slugify "Intro to Observability" ++ "-" ++ sliceLast8 "abcdefgh12345678" ∧
      c2.slug = slugify "Intro to Observability" ++ "-" ++ sliceLast8 "zyxwvuts87654321" ∧
      c1.slug ≠ c2.slug ∧ c1 ≠ c2 :=
  claim_C9_distinct_slugs twoInstructorDB (sampleInput "alice" [])
    (sampleInput "alice" []) sampleNondet
    { sampleNondet with courseId := "zyxwvuts87654321" }
    (by decide) rfl (Or.inl rfl) rfl (Or.inl rfl) rfl (by decide)

end SentryAcademy
